import Mathlib

/-!
# semver-resource: the backend selector `driver.FromSource`

A shallow embedding of `src/driver/driver.go`.  Go strings are `String`, Go
pointers and interface values that may be nil are `Option`, `uint64` fields are
`Nat`.  Calls that leave the file (the semver parser, the AWS SDK session, the
Swift constructor) are taken from an environment `Env`.
-/

set_option linter.unusedVariables false

namespace SemverResource

/-! ## Values of `github.com/blang/semver` -/

/-- One prerelease identifier of a semantic version (`semver.PRVersion`). -/
structure PRVersion where
  VersionStr : String
  VersionNum : Nat
  IsNum : Bool
  deriving DecidableEq

/-- The value type `semver.Version`; nil slices are empty lists. -/
structure Version where
  Major : Nat
  Minor : Nat
  Patch : Nat
  Pre : List PRVersion
  Build : List String
  deriving DecidableEq

/-! ## Values of `models` -/

/-- The fields of `models.Source` that `FromSource` reads.  `Driver` is the
backend kind, a string type in Go (it is printed with `%s`). -/
structure Source where
  Driver : String
  InitialVersion : String
  Bucket : String
  Key : String
  AccessKeyID : String
  SecretAccessKey : String
  SessionToken : String
  RegionName : String
  Endpoint : String
  DisableSSL : Bool
  SkipSSLVerification : Bool
  ServerSideEncryption : String
  UseV2Signing : Bool
  URI : String
  Branch : String
  PrivateKey : String
  Username : String
  Password : String
  File : String
  GitUser : String
  CommitMessage : String
  JSONKey : String
  deriving DecidableEq

/-- The five `models.Driver*` constants named by the `switch` of `FromSource`.
Their declaration is outside `driver.go`, so their values are parameters; a Go
`switch` over constants only compiles when the case constants are pairwise
distinct, which is the field `distinct`. -/
structure DriverKinds where
  DriverUnspecified : String
  DriverS3 : String
  DriverGit : String
  DriverSwift : String
  DriverGCS : String
  distinct : [DriverUnspecified, DriverS3, DriverGit, DriverSwift, DriverGCS].Nodup

/-! ## Values of the AWS SDK -/

/-- The value `credentials.NewStaticCredentials` wraps. -/
structure Credentials where
  AccessKeyID : String
  SecretAccessKey : String
  SessionToken : String
  deriving DecidableEq

/-- The constructor `credentials.NewStaticCredentials(id, secret, token)`. -/
def NewStaticCredentials (id secret token : String) : Credentials :=
  { AccessKeyID := id, SecretAccessKey := secret, SessionToken := token }

/-- The two HTTP clients `FromSource` chooses between: `http.DefaultClient`, or
a fresh client whose transport carries a TLS configuration. -/
inductive HTTPClient where
  | DefaultClient
  | withTLS (InsecureSkipVerify : Bool)
  deriving DecidableEq

/-- The log levels of `aws.LogLevelType`. -/
inductive LogLevelType where
  | LogOff
  | LogDebug
  | LogDebugWithSigning
  | LogDebugWithHTTPBody
  deriving DecidableEq

/-- The fields of `aws.Config` that `FromSource` touches; every one is a
pointer or interface in Go, nil until set. -/
structure AwsConfig where
  Credentials : Option Credentials
  Endpoint : Option String
  Region : Option String
  DisableSSL : Option Bool
  HTTPClient : Option HTTPClient
  LogLevel : Option LogLevelType
  MaxRetries : Option Int
  S3ForcePathStyle : Option Bool
  deriving DecidableEq

/-- The empty configuration `aws.NewConfig()`. -/
def NewConfig : AwsConfig :=
  { Credentials := none, Endpoint := none, Region := none, DisableSSL := none,
    HTTPClient := none, LogLevel := none, MaxRetries := none, S3ForcePathStyle := none }

/-- The setter `(*aws.Config).WithLogLevel`. -/
def AwsConfig.WithLogLevel (c : AwsConfig) (level : LogLevelType) : AwsConfig :=
  { c with LogLevel := some level }

/-- The setter `(*aws.Config).WithRegion`. -/
def AwsConfig.WithRegion (c : AwsConfig) (region : String) : AwsConfig :=
  { c with Region := some region }

/-- The setter `(*aws.Config).WithMaxRetries`. -/
def AwsConfig.WithMaxRetries (c : AwsConfig) (max : Int) : AwsConfig :=
  { c with MaxRetries := some max }

/-- The setter `(*aws.Config).WithDisableSSL`. -/
def AwsConfig.WithDisableSSL (c : AwsConfig) (disable : Bool) : AwsConfig :=
  { c with DisableSSL := some disable }

/-- The setter `(*aws.Config).WithHTTPClient`. -/
def AwsConfig.WithHTTPClient (c : AwsConfig) (client : SemverResource.HTTPClient) :
    AwsConfig :=
  { c with HTTPClient := some client }

/-- The setter `(*aws.Config).WithS3ForcePathStyle`. -/
def AwsConfig.WithS3ForcePathStyle (c : AwsConfig) (force : Bool) : AwsConfig :=
  { c with S3ForcePathStyle := some force }

/-- An SDK session: the configuration it resolved from the process
environment. -/
structure Session where
  Config : AwsConfig
  deriving DecidableEq

/-- The S3 service client `*s3.S3`: the session and the configuration it was
created from, and whether its signing handlers were replaced. -/
structure S3Client where
  Session : Session
  Config : AwsConfig
  V2Signing : Bool
  deriving DecidableEq

/-- The constructor `s3.New(sess, cfg)`. -/
def s3New (sess : Session) (cfg : AwsConfig) : S3Client :=
  { Session := sess, Config := cfg, V2Signing := false }

/-- Modelled from the spec: `setv2Handlers` is declared outside `driver.go`;
it is the "signing-version toggle for the object-storage kind", switching the
client to version-2 request signing and leaving its configuration alone. -/
def setv2Handlers (svc : S3Client) : S3Client :=
  { svc with V2Signing := true }

/-! ## The drivers -/

/-- The fields `FromSource` gives an `S3Driver`. -/
structure S3Driver where
  InitialVersion : Version
  Svc : S3Client
  BucketName : String
  Key : String
  ServerSideEncryption : String
  deriving DecidableEq

/-- The fields `FromSource` gives a `GitDriver`. -/
structure GitDriver where
  InitialVersion : Version
  URI : String
  Branch : String
  PrivateKey : String
  Username : String
  Password : String
  File : String
  GitUser : String
  CommitMessage : String
  SkipSSLVerification : Bool
  deriving DecidableEq

/-- The value `GCSIOServicer`. -/
structure GCSIOServicer where
  JSONCredentials : String
  deriving DecidableEq

/-- The fields `FromSource` gives a `GCSDriver`. -/
structure GCSDriver where
  InitialVersion : Version
  Servicer : GCSIOServicer
  BucketName : String
  Key : String
  deriving DecidableEq

/-- The implementations of the interface `Driver` that `FromSource` can
return.  `SD` is the type of the driver `NewSwiftDriver` builds. -/
inductive Driver (SD : Type) where
  | S3 (d : S3Driver)
  | Git (d : GitDriver)
  | Swift (d : SD)
  | GCS (d : GCSDriver)
  deriving DecidableEq

/-- Everything `FromSource` calls outside `driver.go`: the kind constants,
`semver.Parse`, `session.NewSession()` (which reads the process environment
and takes no argument from the source), and `NewSwiftDriver`. -/
structure Env (SD : Type) where
  kinds : DriverKinds
  Parse : String → Except String Version
  NewSession : Except String Session
  NewSwiftDriver : Source → Option SD × Option String

/-- How a call of `FromSource` ends: a panic carrying an error, or a return
of the pair `(Driver, error)` after the lines in `out` were printed. -/
inductive Outcome (SD : Type) where
  | panic (err : String)
  | ret (driver : Option (Driver SD)) (err : Option String) (out : List String)
  deriving DecidableEq

/-- The constant `maxRetries`. -/
def maxRetries : Int := 12

/-- Go's `len` of a string: its number of bytes. -/
def len (s : String) : Nat := s.utf8ByteSize

/-- The function `FromSource` of `driver.go`. -/
def FromSource {SD : Type} (env : Env SD) (source : Source) : Outcome SD :=
  let parsed : Except String Version :=
    if source.InitialVersion ≠ "" then
      match env.Parse source.InitialVersion with
      | .error err =>
        .error ("invalid initial version (" ++ source.InitialVersion ++ "): " ++ err)
      | .ok version => .ok version
    else
      .ok { Major := 0, Minor := 0, Patch := 0, Pre := [], Build := [] }
  match parsed with
  | .error msg => .ret none (some msg) []
  | .ok initialVersion =>
    if source.Driver = env.kinds.DriverUnspecified ∨ source.Driver = env.kinds.DriverS3 then
      let regionName := if len source.RegionName = 0 then "us-east-1" else source.RegionName
      let creds : Option Credentials :=
        if source.AccessKeyID = "" ∧ source.SecretAccessKey = "" then
          none
        else
          some (NewStaticCredentials source.AccessKeyID source.SecretAccessKey
            source.SessionToken)
      let httpClient :=
        if source.SkipSSLVerification then HTTPClient.withTLS true
        else HTTPClient.DefaultClient
      let awsConfig :=
        (((((NewConfig.WithLogLevel .LogDebugWithHTTPBody).WithRegion regionName).WithMaxRetries
          maxRetries).WithDisableSSL source.DisableSSL).WithHTTPClient
          httpClient).WithS3ForcePathStyle true
      let awsConfig :=
        if len source.Endpoint ≠ 0 then { awsConfig with Endpoint := some source.Endpoint }
        else awsConfig
      match env.NewSession with
      | .error err => .panic err
      | .ok sess =>
        let (awsConfig, out) :=
          if source.AccessKeyID ≠ "" ∧ source.SecretAccessKey ≠ "" then
            ({ awsConfig with
                Credentials :=
                  some (NewStaticCredentials source.AccessKeyID source.SecretAccessKey "") },
              [])
          else
            (awsConfig, ["Using default credential chain for authentication."])
        let svc := s3New sess awsConfig
        let svc := if source.UseV2Signing then setv2Handlers svc else svc
        .ret (some (.S3
          { InitialVersion := initialVersion,
            Svc := svc,
            BucketName := source.Bucket,
            Key := source.Key,
            ServerSideEncryption := source.ServerSideEncryption })) none out
    else if source.Driver = env.kinds.DriverGit then
      .ret (some (.Git
        { InitialVersion := initialVersion,
          URI := source.URI,
          Branch := source.Branch,
          PrivateKey := source.PrivateKey,
          Username := source.Username,
          Password := source.Password,
          File := source.File,
          GitUser := source.GitUser,
          CommitMessage := source.CommitMessage,
          SkipSSLVerification := source.SkipSSLVerification })) none []
    else if source.Driver = env.kinds.DriverSwift then
      match env.NewSwiftDriver source with
      | (d, err) => .ret (d.map .Swift) err []
    else if source.Driver = env.kinds.DriverGCS then
      let servicer : GCSIOServicer := { JSONCredentials := source.JSONKey }
      .ret (some (.GCS
        { InitialVersion := initialVersion,
          Servicer := servicer,
          BucketName := source.Bucket,
          Key := source.Key })) none []
    else
      .ret none (some ("unknown driver: " ++ source.Driver)) []

/-! ## Concrete inputs -/

/-- The kind constants with the values `""`, `"s3"`, `"git"`, `"swift"`,
`"gcs"`. -/
def stdKinds : DriverKinds :=
  { DriverUnspecified := "", DriverS3 := "s3", DriverGit := "git",
    DriverSwift := "swift", DriverGCS := "gcs", distinct := by decide }

/-- A source with every field empty or false. -/
def emptySource : Source :=
  { Driver := "", InitialVersion := "", Bucket := "", Key := "", AccessKeyID := "",
    SecretAccessKey := "", SessionToken := "", RegionName := "", Endpoint := "",
    DisableSSL := false, SkipSSLVerification := false, ServerSideEncryption := "",
    UseV2Signing := false, URI := "", Branch := "", PrivateKey := "", Username := "",
    Password := "", File := "", GitUser := "", CommitMessage := "", JSONKey := "" }

/-- A parser standing for `semver.Parse` on the inputs used below: it accepts
`"1.2.3"` and rejects everything else. -/
def sampleParse (s : String) : Except String Version :=
  if s = "1.2.3" then .ok { Major := 1, Minor := 2, Patch := 3, Pre := [], Build := [] }
  else .error "No Major.Minor.Patch elements found"

/-- An environment in which the SDK session is created. -/
def sampleEnv : Env Unit :=
  { kinds := stdKinds, Parse := sampleParse, NewSession := .ok { Config := NewConfig },
    NewSwiftDriver := fun _ => (some (), none) }

/-- An environment in which `session.NewSession()` reports an error. -/
def brokenSessionEnv : Env Unit :=
  { sampleEnv with NewSession := .error "LoadCustomCABundleError" }

/-- The S3 client configuration an outcome carries, when it returned an
`S3Driver`. -/
def Outcome.clientConfig {SD : Type} : Outcome SD → Option AwsConfig
  | .ret (some (.S3 d)) _ _ => some d.Svc.Config
  | _ => none

/-- The `InitialVersion` field of a driver built in `driver.go`. -/
def Driver.initialVersion {SD : Type} : Driver SD → Option Version
  | .S3 d => some d.InitialVersion
  | .Git d => some d.InitialVersion
  | .GCS d => some d.InitialVersion
  | .Swift _ => none

/-- The version `0.0.0` of line 35. -/
def zeroVersion : Version := { Major := 0, Minor := 0, Patch := 0, Pre := [], Build := [] }

/-- Lines 26-36 seen from outside: `v` is the initial version the drivers are
given, either the default or what `semver.Parse` made of a non-empty string. -/
def InitialIs {SD : Type} (env : Env SD) (source : Source) (v : Version) : Prop :=
  (source.InitialVersion = "" ∧ v = zeroVersion) ∨
    (source.InitialVersion ≠ "" ∧ env.Parse source.InitialVersion = .ok v)

/-! ## The optimistic-concurrency protocol of `Bump`

No implementation of `Driver` is part of `driver.go`; the read-apply-write
cycle below follows sections 3, 4.1, 4.2, 4.4 and 5 of the specification. -/

/-- Modelled from the spec: the `VersionRecord`, missing from the sources: the
stored value (none before the first write) and the backend's concurrency
token, which "changes every time the stored value changes". -/
structure Store where
  value : Option Version
  token : Nat
  deriving DecidableEq

/-- Modelled from the spec: the capability `read() -> (value, token)`. -/
def Store.read (st : Store) : Option Version × Nat := (st.value, st.token)

/-- Modelled from the spec: the capability
`writeIf(value, expectedToken) -> success|conflict`: the write happens only
when the token is the expected one, and then the token changes. -/
def Store.writeIf (st : Store) (v : Version) (expected : Nat) : Store × Bool :=
  if st.token = expected then ({ value := some v, token := st.token + 1 }, true)
  else (st, false)

/-- Modelled from the spec: `ApplyBump(current, Patch)`, missing from the
sources: "increment patch; clear prerelease/build", except that a version
carrying a prerelease has it cleared "instead of incrementing patch".  The
components are `uint64`. -/
def ApplyBumpPatch (current : Version) : Version :=
  if current.Pre ≠ [] then { current with Pre := [], Build := [] }
  else { current with Patch := (current.Patch + 1) % 2 ^ 64, Pre := [], Build := [] }

/-- Modelled from the spec: the "fixed retry ceiling (12 attempts)" of
`Bump`. -/
def retryCeiling : Nat := 12

/-- Modelled from the spec: where one call of `Bump` stands in its
read-apply-write cycle.  `conflicts` counts the conditional writes of this
call that met a conflict so far, that is, its retries. -/
inductive Call where
  | reading (conflicts : Nat)
  | writing (next : Version) (token : Nat) (conflicts : Nat)
  | returned (v : Version) (conflicts : Nat)
  | failed (err : String)
  deriving DecidableEq

/-- Whether the call has come back to its caller. -/
def Call.finished : Call → Bool
  | .returned _ _ => true
  | .failed _ => true
  | _ => false

/-- Modelled from the spec: one atomic storage operation of a `Bump` call.
A reading call reads the stored version "or uses the configured initial
version if none exists yet" and applies the rule; a writing call writes "only
if no other writer has changed the stored value since the read", and on a
conflict "retries the whole read-apply-write cycle" until the ceiling of
attempts is used up. -/
def Call.step (initial : Version) (rule : Version → Except String Version) (st : Store) :
    Call → Store × Call
  | .reading conflicts =>
    match st.read with
    | (value, token) =>
      match rule (value.getD initial) with
      | .error err => (st, .failed err)
      | .ok next => (st, .writing next token conflicts)
  | .writing next token conflicts =>
    match st.writeIf next token with
    | (st2, true) => (st2, .returned next conflicts)
    | (st2, false) =>
      if conflicts + 1 < retryCeiling then (st2, .reading (conflicts + 1))
      else (st2, .failed "ConcurrentModification")
  | c => (st, c)

/-- Modelled from the spec: "concurrency is across independent invocations":
two `Bump` calls against one storage location, which is all they share. -/
structure Race where
  store : Store
  first : Call
  second : Call
  deriving DecidableEq

/-- Modelled from the spec: one step of the race: the call named by `who`
(`false` the first, `true` the second) performs its next storage operation;
the conditional write is "the sole mutual-exclusion mechanism". -/
def Race.step (initial : Version) (rule : Version → Except String Version) (who : Bool)
    (r : Race) : Race :=
  if who then
    match Call.step initial rule r.store r.second with
    | (st, c) => { r with store := st, second := c }
  else
    match Call.step initial rule r.store r.first with
    | (st, c) => { r with store := st, first := c }

/-- Modelled from the spec: the race under a schedule, the order in which the
two calls get to act; nothing else writes to the store. -/
def Race.run (initial : Version) (rule : Version → Except String Version) :
    List Bool → Race → Race
  | [], r => r
  | who :: rest, r => Race.run initial rule rest (Race.step initial rule who r)

/-- The rule `Patch` as a function on versions; it never fails. -/
def patchRule (v : Version) : Except String Version := .ok (ApplyBumpPatch v)

/-- The version `1.0.<patch>`. -/
def v10 (patch : Nat) : Version :=
  { Major := 1, Minor := 0, Patch := patch, Pre := [], Build := [] }

/-- Two calls about to start against a store holding `1.0.0`. -/
def raceStart (token : Nat) : Race :=
  { store := { value := some (v10 0), token := token },
    first := .reading 0, second := .reading 0 }

/-- The stages of a race of two `Bump(Patch)` calls that both read `1.0.0`:
both hold `1.0.1` to write; then `winner` has written, and the other call
still holds its stale token, or has met the conflict, or has read again, or
has written `1.0.2`. -/
inductive Stage where
  | bothRead
  | won (winner : Bool)
  | conflicted (winner : Bool)
  | reread (winner : Bool)
  | settled (winner : Bool)
  deriving DecidableEq

/-- The race state a stage stands for. -/
def Stage.race (token : Nat) : Stage → Race
  | .bothRead =>
    { store := { value := some (v10 0), token := token },
      first := .writing (v10 1) token 0, second := .writing (v10 1) token 0 }
  | .won false =>
    { store := { value := some (v10 1), token := token + 1 },
      first := .returned (v10 1) 0, second := .writing (v10 1) token 0 }
  | .won true =>
    { store := { value := some (v10 1), token := token + 1 },
      first := .writing (v10 1) token 0, second := .returned (v10 1) 0 }
  | .conflicted false =>
    { store := { value := some (v10 1), token := token + 1 },
      first := .returned (v10 1) 0, second := .reading 1 }
  | .conflicted true =>
    { store := { value := some (v10 1), token := token + 1 },
      first := .reading 1, second := .returned (v10 1) 0 }
  | .reread false =>
    { store := { value := some (v10 1), token := token + 1 },
      first := .returned (v10 1) 0, second := .writing (v10 2) (token + 1) 1 }
  | .reread true =>
    { store := { value := some (v10 1), token := token + 1 },
      first := .writing (v10 2) (token + 1) 1, second := .returned (v10 1) 0 }
  | .settled false =>
    { store := { value := some (v10 2), token := token + 2 },
      first := .returned (v10 1) 0, second := .returned (v10 2) 1 }
  | .settled true =>
    { store := { value := some (v10 2), token := token + 2 },
      first := .returned (v10 2) 1, second := .returned (v10 1) 0 }

/-- The stage after the call `who` acts. -/
def Stage.next (who : Bool) : Stage → Stage
  | .bothRead => .won who
  | .won w => if who = w then .won w else .conflicted w
  | .conflicted w => if who = w then .conflicted w else .reread w
  | .reread w => if who = w then .reread w else .settled w
  | .settled w => .settled w

/-- The stage after a schedule. -/
def Stage.after : List Bool → Stage → Stage
  | [], s => s
  | who :: rest, s => Stage.after rest (Stage.next who s)

/-- An upper bound on the storage operations the call `who` still needs. -/
def Stage.todo (who : Bool) : Stage → Nat
  | .bothRead => 3
  | .won w => if who = w then 0 else 3
  | .conflicted w => if who = w then 0 else 2
  | .reread w => if who = w then 0 else 1
  | .settled _ => 0

/-! ## Lemmas on `FromSource`, branch by branch -/

theorem len_eq_zero_iff (s : String) : len s = 0 ↔ s = "" := by
  unfold len
  cases s with
  | mk cs =>
    cases cs with
    | nil => simp [String.utf8ByteSize, String.utf8ByteSize.go]
    | cons c cs =>
      have h := Char.utf8Size_pos c
      simp [String.utf8ByteSize, String.utf8ByteSize.go]
      constructor
      · omega
      · intro h2; exact absurd (congrArg String.data h2) (by simp)

theorem initial_cases {SD : Type} (env : Env SD) (source : Source) :
    (∃ err, source.InitialVersion ≠ "" ∧ env.Parse source.InitialVersion = .error err) ∨
      ∃ v, InitialIs env source v := by
  by_cases h : source.InitialVersion = ""
  · exact Or.inr ⟨zeroVersion, Or.inl ⟨h, rfl⟩⟩
  · obtain ⟨r, hp⟩ : ∃ r, env.Parse source.InitialVersion = r := ⟨_, rfl⟩
    cases r with
    | error err => exact Or.inl ⟨err, h, hp⟩
    | ok v => exact Or.inr ⟨v, Or.inr ⟨h, hp⟩⟩

theorem kinds_ne (k : DriverKinds) :
    k.DriverUnspecified ≠ k.DriverGit ∧ k.DriverS3 ≠ k.DriverGit ∧
    k.DriverUnspecified ≠ k.DriverSwift ∧ k.DriverS3 ≠ k.DriverSwift ∧
    k.DriverGit ≠ k.DriverSwift ∧
    k.DriverUnspecified ≠ k.DriverGCS ∧ k.DriverS3 ≠ k.DriverGCS ∧
    k.DriverGit ≠ k.DriverGCS ∧ k.DriverSwift ≠ k.DriverGCS := by
  have h := k.distinct
  simp only [List.nodup_cons, List.mem_cons, List.mem_singleton, not_or, List.not_mem_nil,
    not_false_eq_true, List.nodup_nil, and_true] at h
  tauto

theorem FromSource_parse_error {SD : Type} (env : Env SD) (source : Source) (err : String)
    (hne : source.InitialVersion ≠ "") (hrej : env.Parse source.InitialVersion = .error err) :
    FromSource env source =
      .ret none (some ("invalid initial version (" ++ source.InitialVersion ++ "): " ++ err))
        [] := by
  unfold FromSource
  simp [hne, hrej]

theorem FromSource_s3_panic {SD : Type} (env : Env SD) (source : Source) (v : Version)
    (e : String) (hv : InitialIs env source v)
    (hk : source.Driver = env.kinds.DriverUnspecified ∨ source.Driver = env.kinds.DriverS3)
    (hs : env.NewSession = .error e) :
    FromSource env source = .panic e := by
  unfold FromSource
  rcases hv with ⟨h0, -⟩ | ⟨h0, hp⟩
  · simp [h0, hk, hs]
  · simp [h0, hp, hk, hs]

theorem FromSource_s3_ok {SD : Type} (env : Env SD) (source : Source) (v : Version)
    (sess : Session) (hv : InitialIs env source v)
    (hk : source.Driver = env.kinds.DriverUnspecified ∨ source.Driver = env.kinds.DriverS3)
    (hs : env.NewSession = .ok sess) :
    ∃ d out, FromSource env source = .ret (some (.S3 d)) none out ∧
      d.InitialVersion = v ∧ d.BucketName = source.Bucket ∧ d.Key = source.Key ∧
      d.ServerSideEncryption = source.ServerSideEncryption ∧
      d.Svc.Session = sess ∧
      d.Svc.Config.Region =
        some (if source.RegionName = "" then "us-east-1" else source.RegionName) ∧
      d.Svc.Config.MaxRetries = some 12 ∧
      d.Svc.Config.Credentials =
        (if source.AccessKeyID ≠ "" ∧ source.SecretAccessKey ≠ "" then
          some { AccessKeyID := source.AccessKeyID,
                 SecretAccessKey := source.SecretAccessKey, SessionToken := "" }
        else none) ∧
      out = (if source.AccessKeyID ≠ "" ∧ source.SecretAccessKey ≠ "" then []
        else ["Using default credential chain for authentication."]) := by
  have hlen := len_eq_zero_iff source.RegionName
  rcases hv with ⟨h0, hz⟩ | ⟨h0, hp⟩ <;>
  by_cases hc : source.AccessKeyID ≠ "" ∧ source.SecretAccessKey ≠ "" <;>
  by_cases hu : source.UseV2Signing = true <;>
  by_cases he : len source.Endpoint = 0 <;>
  by_cases hr : source.RegionName = "" <;>
  simp [FromSource, h0, hk, hs, hc, hu, he, hr, hlen, s3New, setv2Handlers,
    AwsConfig.WithLogLevel, AwsConfig.WithRegion, AwsConfig.WithMaxRetries,
    AwsConfig.WithDisableSSL, AwsConfig.WithHTTPClient, AwsConfig.WithS3ForcePathStyle,
    NewConfig, maxRetries, NewStaticCredentials, zeroVersion, *] <;>
  exact ⟨_, _, ⟨rfl, rfl⟩, by simp [len_eq_zero_iff]⟩

theorem FromSource_git {SD : Type} (env : Env SD) (source : Source) (v : Version)
    (hv : InitialIs env source v) (hk : source.Driver = env.kinds.DriverGit) :
    FromSource env source = .ret (some (.Git
      { InitialVersion := v, URI := source.URI, Branch := source.Branch,
        PrivateKey := source.PrivateKey, Username := source.Username,
        Password := source.Password, File := source.File, GitUser := source.GitUser,
        CommitMessage := source.CommitMessage,
        SkipSSLVerification := source.SkipSSLVerification })) none [] := by
  obtain ⟨h1, h2, -⟩ := kinds_ne env.kinds
  rcases hv with ⟨h0, hz⟩ | ⟨h0, hp⟩ <;>
  simp [FromSource, h0, hk, h1.symm, h2.symm, zeroVersion, *]

theorem FromSource_gcs {SD : Type} (env : Env SD) (source : Source) (v : Version)
    (hv : InitialIs env source v) (hk : source.Driver = env.kinds.DriverGCS) :
    FromSource env source = .ret (some (.GCS
      { InitialVersion := v, Servicer := { JSONCredentials := source.JSONKey },
        BucketName := source.Bucket, Key := source.Key })) none [] := by
  obtain ⟨-, -, -, -, -, h1, h2, h3, h4⟩ := kinds_ne env.kinds
  rcases hv with ⟨h0, hz⟩ | ⟨h0, hp⟩ <;>
  simp [FromSource, h0, hk, h1.symm, h2.symm, h3.symm, h4.symm, zeroVersion, *]

theorem FromSource_swift {SD : Type} (env : Env SD) (source : Source) (v : Version)
    (hv : InitialIs env source v) (hk : source.Driver = env.kinds.DriverSwift) :
    FromSource env source =
      .ret ((env.NewSwiftDriver source).1.map .Swift) (env.NewSwiftDriver source).2 [] := by
  obtain ⟨-, -, h1, h2, h3, -⟩ := kinds_ne env.kinds
  rcases hv with ⟨h0, hz⟩ | ⟨h0, hp⟩ <;>
  simp [FromSource, h0, hk, h1.symm, h2.symm, h3.symm, *]

theorem FromSource_unknown {SD : Type} (env : Env SD) (source : Source) (v : Version)
    (hv : InitialIs env source v)
    (h1 : source.Driver ≠ env.kinds.DriverUnspecified) (h2 : source.Driver ≠ env.kinds.DriverS3)
    (h3 : source.Driver ≠ env.kinds.DriverGit) (h4 : source.Driver ≠ env.kinds.DriverSwift)
    (h5 : source.Driver ≠ env.kinds.DriverGCS) :
    FromSource env source = .ret none (some ("unknown driver: " ++ source.Driver)) [] := by
  rcases hv with ⟨h0, hz⟩ | ⟨h0, hp⟩ <;>
  simp [FromSource, h0, h1, h2, h3, h4, h5, *]

/-- On the S3 branch a call ends in exactly one of three ways. -/
theorem FromSource_s3_cases {SD : Type} (env : Env SD) (source : Source)
    (hk : source.Driver = env.kinds.DriverUnspecified ∨ source.Driver = env.kinds.DriverS3) :
    (∃ err, FromSource env source = .ret none (some err) []) ∨
    (∃ e, FromSource env source = .panic e) ∨
    (∃ v sess, InitialIs env source v ∧ env.NewSession = .ok sess) := by
  rcases initial_cases env source with ⟨err, hne, hrej⟩ | ⟨v, hv⟩
  · exact Or.inl ⟨_, FromSource_parse_error env source err hne hrej⟩
  · obtain ⟨r, hs⟩ : ∃ r, env.NewSession = r := ⟨_, rfl⟩
    cases r with
    | error e => exact Or.inr (Or.inl ⟨e, FromSource_s3_panic env source v e hv hk hs⟩)
    | ok sess => exact Or.inr (Or.inr ⟨v, sess, hv, hs⟩)

/-- Whatever driver the S3 branch returns is the one `FromSource_s3_ok`
describes. -/
theorem FromSource_s3_returned {SD : Type} (env : Env SD) (source : Source)
    (hk : source.Driver = env.kinds.DriverUnspecified ∨ source.Driver = env.kinds.DriverS3)
    (d : Driver SD) (err : Option String) (out : List String)
    (h : FromSource env source = .ret (some d) err out) :
    ∃ v sess, InitialIs env source v ∧ env.NewSession = .ok sess := by
  rcases FromSource_s3_cases env source hk with ⟨e, he⟩ | ⟨e, he⟩ | h3
  · rw [he] at h; simp at h
  · rw [he] at h; simp at h
  · exact h3

/-! ## The claims on `FromSource` -/

/-- C1: when `InitialVersion` is a non-empty string that `semver.Parse` rejects
with error `err`, `FromSource` returns a nil Driver and the error
"invalid initial version (<the string>): <err>", whatever the driver kind
and whatever the environment holds: no session is created, no backend is
built, nothing is printed. -/
theorem C1_invalid_initial_version {SD : Type} (env : Env SD) (source : Source)
    (err : String) (hne : source.InitialVersion ≠ "")
    (hrej : env.Parse source.InitialVersion = .error err) :
    FromSource env source =
      .ret none (some ("invalid initial version (" ++ source.InitialVersion ++ "): " ++ err))
        [] :=
  FromSource_parse_error env source err hne hrej

/-- C1 at an S3 source with initial version "x", in an environment where
creating the session would panic: the parse error is returned first. -/
theorem C1_invalid_initial_version_witness :
    FromSource brokenSessionEnv { emptySource with Driver := "s3", InitialVersion := "x" } =
      .ret none
        (some ("invalid initial version (" ++ "x" ++ "): " ++
          "No Major.Minor.Patch elements found")) [] :=
  C1_invalid_initial_version brokenSessionEnv
    { emptySource with Driver := "s3", InitialVersion := "x" }
    "No Major.Minor.Patch elements found" (by decide) rfl

/-- C2: for a source of kind S3, unspecified, Git or GCS, every Driver
`FromSource` returns has `InitialVersion` equal to `0.0.0` when the source's
initial version is empty, and equal to the parsed version when it is a
non-empty string `semver.Parse` accepts; and a Driver is returned for Git and
GCS, and for S3 and unspecified once the session is created. -/
theorem C2_initial_version {SD : Type} (env : Env SD) (source : Source) (v : Version)
    (hk : source.Driver = env.kinds.DriverS3 ∨ source.Driver = env.kinds.DriverUnspecified ∨
      source.Driver = env.kinds.DriverGit ∨ source.Driver = env.kinds.DriverGCS)
    (hv : (source.InitialVersion = "" ∧
            v = { Major := 0, Minor := 0, Patch := 0, Pre := [], Build := [] }) ∨
          (source.InitialVersion ≠ "" ∧ env.Parse source.InitialVersion = .ok v)) :
    (∀ d err out, FromSource env source = .ret (some d) err out →
      d.initialVersion = some v) ∧
    ((source.Driver = env.kinds.DriverGit ∨ source.Driver = env.kinds.DriverGCS ∨
        ∃ sess, env.NewSession = .ok sess) →
      ∃ d out, FromSource env source = .ret (some d) none out) := by
  have hv2 : InitialIs env source v := hv
  constructor
  · intro d err out h
    rcases hk with hk | hk | hk | hk
    · obtain ⟨v2, sess, -, hs⟩ := FromSource_s3_returned env source (Or.inr hk) d err out h
      obtain ⟨d2, out2, heq, hi, -⟩ := FromSource_s3_ok env source v sess hv2 (Or.inr hk) hs
      rw [heq] at h
      simp only [Outcome.ret.injEq, Option.some.injEq] at h
      rw [← h.1]
      simp [Driver.initialVersion, hi]
    · obtain ⟨v2, sess, -, hs⟩ := FromSource_s3_returned env source (Or.inl hk) d err out h
      obtain ⟨d2, out2, heq, hi, -⟩ := FromSource_s3_ok env source v sess hv2 (Or.inl hk) hs
      rw [heq] at h
      simp only [Outcome.ret.injEq, Option.some.injEq] at h
      rw [← h.1]
      simp [Driver.initialVersion, hi]
    · rw [FromSource_git env source v hv2 hk] at h
      simp only [Outcome.ret.injEq, Option.some.injEq] at h
      rw [← h.1]
      simp [Driver.initialVersion]
    · rw [FromSource_gcs env source v hv2 hk] at h
      simp only [Outcome.ret.injEq, Option.some.injEq] at h
      rw [← h.1]
      simp [Driver.initialVersion]
  · intro h
    rcases hk with hk | hk | hk | hk
    · rcases h with h | h | ⟨sess, hs⟩
      · exact absurd (hk.symm.trans h) (kinds_ne env.kinds).2.1
      · exact absurd (hk.symm.trans h) (kinds_ne env.kinds).2.2.2.2.2.2.1
      · obtain ⟨d2, out2, heq, -⟩ := FromSource_s3_ok env source v sess hv2 (Or.inr hk) hs
        exact ⟨_, _, heq⟩
    · rcases h with h | h | ⟨sess, hs⟩
      · exact absurd (hk.symm.trans h) (kinds_ne env.kinds).1
      · exact absurd (hk.symm.trans h) (kinds_ne env.kinds).2.2.2.2.2.1
      · obtain ⟨d2, out2, heq, -⟩ := FromSource_s3_ok env source v sess hv2 (Or.inl hk) hs
        exact ⟨_, _, heq⟩
    · exact ⟨_, _, FromSource_git env source v hv2 hk⟩
    · exact ⟨_, _, FromSource_gcs env source v hv2 hk⟩

/-- C2 at a GCS source with initial version "1.2.3": the driver returned
carries the parsed 1.2.3. -/
theorem C2_initial_version_witness :
    (∀ d err out,
      FromSource sampleEnv { emptySource with Driver := "gcs", InitialVersion := "1.2.3" } =
        .ret (some d) err out →
      d.initialVersion = some { Major := 1, Minor := 2, Patch := 3, Pre := [], Build := [] }) ∧
    (("gcs" = "git" ∨ "gcs" = "gcs" ∨ ∃ sess, sampleEnv.NewSession = .ok sess) →
      ∃ d out,
        FromSource sampleEnv { emptySource with Driver := "gcs", InitialVersion := "1.2.3" } =
          .ret (some d) none out) :=
  C2_initial_version sampleEnv { emptySource with Driver := "gcs", InitialVersion := "1.2.3" }
    { Major := 1, Minor := 2, Patch := 3, Pre := [], Build := [] }
    (by decide) (Or.inr ⟨by decide, rfl⟩)

/-- C3 as stated fails: an S3 source with an empty initial version, in an
environment where `session.NewSession()` reports an error, makes `FromSource`
panic in `session.Must`; no Driver and no error are returned. -/
theorem C3_counterexample :
    ({ emptySource with Driver := "s3" } : Source).InitialVersion = "" ∧
    ({ emptySource with Driver := "s3" } : Source).Driver = brokenSessionEnv.kinds.DriverS3 ∧
    FromSource brokenSessionEnv { emptySource with Driver := "s3" } =
      .panic "LoadCustomCABundleError" ∧
    ¬ ∃ d out, FromSource brokenSessionEnv { emptySource with Driver := "s3" } =
      .ret (some d) none out := by
  refine ⟨rfl, rfl, rfl, ?_⟩
  rintro ⟨d, out, h⟩
  have h2 : FromSource brokenSessionEnv { emptySource with Driver := "s3" } =
      .panic "LoadCustomCABundleError" := rfl
  rw [h2] at h
  exact Outcome.noConfusion h

/-- C3, amended: with an initial version that is empty or parses, a kind that
is none of unspecified, S3, Git, Swift, GCS gives a nil Driver and the error
"unknown driver: <kind>"; Git and GCS give a non-nil Driver and a nil error;
unspecified and S3 give a non-nil Driver and a nil error when
`session.NewSession()` succeeds and a panic with its error when it fails; and
for a kind other than Swift the unknown-driver error is returned if and only
if the kind is none of unspecified, S3, Git, GCS. -/
theorem C3_unknown_driver {SD : Type} (env : Env SD) (source : Source)
    (hv : source.InitialVersion = "" ∨ ∃ v, env.Parse source.InitialVersion = .ok v) :
    ((source.Driver ≠ env.kinds.DriverUnspecified ∧ source.Driver ≠ env.kinds.DriverS3 ∧
        source.Driver ≠ env.kinds.DriverGit ∧ source.Driver ≠ env.kinds.DriverSwift ∧
        source.Driver ≠ env.kinds.DriverGCS) →
      FromSource env source = .ret none (some ("unknown driver: " ++ source.Driver)) []) ∧
    ((source.Driver = env.kinds.DriverGit ∨ source.Driver = env.kinds.DriverGCS) →
      ∃ d, FromSource env source = .ret (some d) none []) ∧
    ((source.Driver = env.kinds.DriverUnspecified ∨ source.Driver = env.kinds.DriverS3) →
      (∀ sess, env.NewSession = .ok sess →
        ∃ d out, FromSource env source = .ret (some d) none out) ∧
      (∀ e, env.NewSession = .error e → FromSource env source = .panic e)) ∧
    (source.Driver ≠ env.kinds.DriverSwift →
      ((∃ d out, FromSource env source =
          .ret d (some ("unknown driver: " ++ source.Driver)) out) ↔
        (source.Driver ≠ env.kinds.DriverUnspecified ∧ source.Driver ≠ env.kinds.DriverS3 ∧
          source.Driver ≠ env.kinds.DriverGit ∧ source.Driver ≠ env.kinds.DriverGCS))) := by
  obtain ⟨v, hv2⟩ : ∃ v, InitialIs env source v := by
    rcases initial_cases env source with ⟨err, hne, hrej⟩ | h
    · rcases hv with h0 | ⟨v, hp⟩
      · exact absurd h0 hne
      · rw [hp] at hrej; exact Except.noConfusion hrej
    · exact h
  have hs3 : (source.Driver = env.kinds.DriverUnspecified ∨ source.Driver = env.kinds.DriverS3) →
      (∀ sess, env.NewSession = .ok sess →
        ∃ d out, FromSource env source = .ret (some d) none out) ∧
      (∀ e, env.NewSession = .error e → FromSource env source = .panic e) := by
    intro hk
    constructor
    · intro sess hs
      obtain ⟨d, out, heq, -⟩ := FromSource_s3_ok env source v sess hv2 hk hs
      exact ⟨_, _, heq⟩
    · intro e hs
      exact FromSource_s3_panic env source v e hv2 hk hs
  refine ⟨?_, ?_, hs3, ?_⟩
  · rintro ⟨h1, h2, h3, h4, h5⟩
    exact FromSource_unknown env source v hv2 h1 h2 h3 h4 h5
  · rintro (hk | hk)
    · exact ⟨_, FromSource_git env source v hv2 hk⟩
    · exact ⟨_, FromSource_gcs env source v hv2 hk⟩
  · intro hsw
    constructor
    · rintro ⟨d, out, h⟩
      refine ⟨?_, ?_, ?_, ?_⟩
      · intro hk
        obtain ⟨r, hs⟩ : ∃ r, env.NewSession = r := ⟨_, rfl⟩
        cases r with
        | error e => rw [(hs3 (Or.inl hk)).2 e hs] at h; exact Outcome.noConfusion h
        | ok sess =>
          obtain ⟨d2, out2, heq⟩ := (hs3 (Or.inl hk)).1 sess hs
          rw [heq] at h; simp at h
      · intro hk
        obtain ⟨r, hs⟩ : ∃ r, env.NewSession = r := ⟨_, rfl⟩
        cases r with
        | error e => rw [(hs3 (Or.inr hk)).2 e hs] at h; exact Outcome.noConfusion h
        | ok sess =>
          obtain ⟨d2, out2, heq⟩ := (hs3 (Or.inr hk)).1 sess hs
          rw [heq] at h; simp at h
      · intro hk
        rw [FromSource_git env source v hv2 hk] at h; simp at h
      · intro hk
        rw [FromSource_gcs env source v hv2 hk] at h; simp at h
    · rintro ⟨h1, h2, h3, h5⟩
      exact ⟨_, _, FromSource_unknown env source v hv2 h1 h2 h3 hsw h5⟩

/-- C3 amended, at the kind "ftp" with an empty initial version. -/
theorem C3_unknown_driver_witness :
    FromSource sampleEnv { emptySource with Driver := "ftp" } =
      .ret none (some ("unknown driver: " ++ "ftp")) [] :=
  (C3_unknown_driver sampleEnv { emptySource with Driver := "ftp" } (Or.inl rfl)).1
    (by decide)

/-- C4: a source with the kind left unspecified gives the same outcome as the
source that differs only in having kind S3; every Driver returned for it is an
`S3Driver` whose `BucketName`, `Key` and `ServerSideEncryption` are the
source's `Bucket`, `Key` and `ServerSideEncryption`; and one is returned when
the initial version is usable and the session is created. -/
theorem C4_default_is_s3 {SD : Type} (env : Env SD) (source : Source)
    (hk : source.Driver = env.kinds.DriverUnspecified) :
    FromSource env source = FromSource env { source with Driver := env.kinds.DriverS3 } ∧
    (∀ d err out, FromSource env source = .ret (some d) err out →
      ∃ s, d = .S3 s ∧ s.BucketName = source.Bucket ∧ s.Key = source.Key ∧
        s.ServerSideEncryption = source.ServerSideEncryption) ∧
    (∀ sess, env.NewSession = .ok sess →
      (source.InitialVersion = "" ∨ ∃ v, env.Parse source.InitialVersion = .ok v) →
      ∃ s, FromSource env source = .ret (some (.S3 s)) none
        (if source.AccessKeyID ≠ "" ∧ source.SecretAccessKey ≠ "" then []
          else ["Using default credential chain for authentication."])) := by
  refine ⟨?_, ?_, ?_⟩
  · unfold FromSource
    simp [hk]
  · intro d err out h
    obtain ⟨v, sess, hv, hs⟩ := FromSource_s3_returned env source (Or.inl hk) d err out h
    obtain ⟨d2, out2, heq, -, hb, hkey, hsse, -⟩ :=
      FromSource_s3_ok env source v sess hv (Or.inl hk) hs
    rw [heq] at h
    simp only [Outcome.ret.injEq, Option.some.injEq] at h
    exact ⟨d2, h.1.symm, hb, hkey, hsse⟩
  · intro sess hs hv
    obtain ⟨v, hv2⟩ : ∃ v, InitialIs env source v := by
      rcases initial_cases env source with ⟨err, hne, hrej⟩ | h
      · rcases hv with h0 | ⟨v, hp⟩
        · exact absurd h0 hne
        · rw [hp] at hrej; exact Except.noConfusion hrej
      · exact h
    obtain ⟨d2, out2, heq, -, -, -, -, -, -, -, -, hout⟩ :=
      FromSource_s3_ok env source v sess hv2 (Or.inl hk) hs
    exact ⟨d2, hout ▸ heq⟩

/-- C4 at a source with no kind, bucket "b", key "k" and encryption
"AES256". -/
theorem C4_default_is_s3_witness :
    FromSource sampleEnv
        { emptySource with Bucket := "b", Key := "k", ServerSideEncryption := "AES256" } =
      FromSource sampleEnv
        { emptySource with
            Bucket := "b", Key := "k", ServerSideEncryption := "AES256", Driver := "s3" } ∧
    ∃ s, FromSource sampleEnv
        { emptySource with Bucket := "b", Key := "k", ServerSideEncryption := "AES256" } =
        .ret (some (.S3 s)) none ["Using default credential chain for authentication."] ∧
      s.BucketName = "b" ∧ s.Key = "k" ∧ s.ServerSideEncryption = "AES256" := by
  have h := C4_default_is_s3 sampleEnv
    { emptySource with Bucket := "b", Key := "k", ServerSideEncryption := "AES256" } rfl
  refine ⟨h.1, ?_⟩
  obtain ⟨s, hs⟩ := h.2.2 _ rfl (Or.inl rfl)
  obtain ⟨s2, hd, hb, hkey, hsse⟩ := h.2.1 _ _ _ hs
  cases hd
  exact ⟨s, hs, hb, hkey, hsse⟩

/-- The S3 branch hands back a client configuration exactly when it returns
the driver of `FromSource_s3_ok`. -/
theorem clientConfig_s3 {SD : Type} (env : Env SD) (source : Source)
    (hk : source.Driver = env.kinds.DriverUnspecified ∨ source.Driver = env.kinds.DriverS3)
    (cfg : AwsConfig) (h : (FromSource env source).clientConfig = some cfg) :
    cfg.Region = some (if source.RegionName = "" then "us-east-1" else source.RegionName) ∧
    cfg.MaxRetries = some 12 ∧
    cfg.Credentials =
      (if source.AccessKeyID ≠ "" ∧ source.SecretAccessKey ≠ "" then
        some { AccessKeyID := source.AccessKeyID,
               SecretAccessKey := source.SecretAccessKey, SessionToken := "" }
      else none) := by
  rcases FromSource_s3_cases env source hk with ⟨e, he⟩ | ⟨e, he⟩ | ⟨v, sess, hv, hs⟩
  · rw [he] at h; simp [Outcome.clientConfig] at h
  · rw [he] at h; simp [Outcome.clientConfig] at h
  · obtain ⟨d, out, heq, -, -, -, -, -, hr, hm, hc, -⟩ :=
      FromSource_s3_ok env source v sess hv hk hs
    rw [heq] at h
    simp only [Outcome.clientConfig, Option.some.injEq] at h
    subst h
    exact ⟨hr, hm, hc⟩

/-- A client configuration is built on the S3 branch once the initial version
is usable and the session is created. -/
theorem clientConfig_s3_exists {SD : Type} (env : Env SD) (source : Source)
    (hk : source.Driver = env.kinds.DriverUnspecified ∨ source.Driver = env.kinds.DriverS3)
    (sess : Session) (hs : env.NewSession = .ok sess)
    (hv : source.InitialVersion = "" ∨ ∃ v, env.Parse source.InitialVersion = .ok v) :
    ∃ cfg, (FromSource env source).clientConfig = some cfg := by
  obtain ⟨v, hv2⟩ : ∃ v, InitialIs env source v := by
    rcases initial_cases env source with ⟨err, hne, hrej⟩ | h
    · rcases hv with h0 | ⟨v, hp⟩
      · exact absurd h0 hne
      · rw [hp] at hrej; exact Except.noConfusion hrej
    · exact h
  obtain ⟨d, out, heq, -⟩ := FromSource_s3_ok env source v sess hv2 hk hs
  exact ⟨d.Svc.Config, by rw [heq]; rfl⟩

/-- C5: for a source of kind S3 or unspecified, the region of the client
configuration `FromSource` builds is "us-east-1" when `RegionName` is empty
and `RegionName` itself otherwise; a configuration is built once the initial
version is usable and the session is created. -/
theorem C5_region {SD : Type} (env : Env SD) (source : Source)
    (hk : source.Driver = env.kinds.DriverS3 ∨ source.Driver = env.kinds.DriverUnspecified) :
    (∀ cfg, (FromSource env source).clientConfig = some cfg →
      (source.RegionName = "" → cfg.Region = some "us-east-1") ∧
      (source.RegionName ≠ "" → cfg.Region = some source.RegionName)) ∧
    (∀ sess, env.NewSession = .ok sess →
      (source.InitialVersion = "" ∨ ∃ v, env.Parse source.InitialVersion = .ok v) →
      ∃ cfg, (FromSource env source).clientConfig = some cfg) := by
  constructor
  · intro cfg h
    obtain ⟨hr, -⟩ := clientConfig_s3 env source hk.symm cfg h
    constructor
    · intro h0; rw [hr, if_pos h0]
    · intro h0; rw [hr, if_neg h0]
  · intro sess hs hv
    exact clientConfig_s3_exists env source hk.symm sess hs hv

/-- C5 at an S3 source with region "eu-west-1" and at one with no region. -/
theorem C5_region_witness :
    (FromSource sampleEnv
        { emptySource with Driver := "s3", RegionName := "eu-west-1" }).clientConfig.bind
        (fun cfg => cfg.Region) = some "eu-west-1" ∧
    (FromSource sampleEnv { emptySource with Driver := "s3" }).clientConfig.bind
        (fun cfg => cfg.Region) = some "us-east-1" := by
  have h1 := C5_region sampleEnv
    { emptySource with Driver := "s3", RegionName := "eu-west-1" } (Or.inl rfl)
  have h2 := C5_region sampleEnv { emptySource with Driver := "s3" } (Or.inl rfl)
  obtain ⟨c1, hc1⟩ := h1.2 _ rfl (Or.inl rfl)
  obtain ⟨c2, hc2⟩ := h2.2 _ rfl (Or.inl rfl)
  rw [hc1, hc2]
  exact ⟨(h1.1 c1 hc1).2 (by decide), (h2.1 c2 hc2).1 rfl⟩

/-- C6 as stated fails: a source with no kind, an empty initial version and
empty credentials, in an environment where `session.NewSession()` reports an
error, makes `FromSource` panic; no Driver is returned. -/
theorem C6_counterexample :
    emptySource.Driver = brokenSessionEnv.kinds.DriverUnspecified ∧
    emptySource.InitialVersion = "" ∧
    emptySource.AccessKeyID = "" ∧ emptySource.SecretAccessKey = "" ∧
    FromSource brokenSessionEnv emptySource = .panic "LoadCustomCABundleError" ∧
    ¬ ∃ d out, FromSource brokenSessionEnv emptySource = .ret (some d) none out := by
  refine ⟨rfl, rfl, rfl, rfl, rfl, ?_⟩
  rintro ⟨d, out, h⟩
  have h2 : FromSource brokenSessionEnv emptySource = .panic "LoadCustomCABundleError" := rfl
  rw [h2] at h
  exact Outcome.noConfusion h

/-- C6, amended: for a source of kind S3 or unspecified whose initial version
is empty or parses and whose `AccessKeyID` and `SecretAccessKey` are both
empty, `FromSource` returns an `S3Driver` with a nil error whenever
`session.NewSession()` succeeds, its client configuration has `Credentials`
unset and the default-chain notice is printed; when `session.NewSession()`
fails the call panics with that error; an error is never returned. -/
theorem C6_empty_credentials {SD : Type} (env : Env SD) (source : Source)
    (hk : source.Driver = env.kinds.DriverS3 ∨ source.Driver = env.kinds.DriverUnspecified)
    (hv : source.InitialVersion = "" ∨ ∃ v, env.Parse source.InitialVersion = .ok v)
    (hid : source.AccessKeyID = "") (hsec : source.SecretAccessKey = "") :
    (∀ sess, env.NewSession = .ok sess →
      ∃ s, FromSource env source = .ret (some (.S3 s)) none
          ["Using default credential chain for authentication."] ∧
        s.Svc.Config.Credentials = none) ∧
    (∀ e, env.NewSession = .error e → FromSource env source = .panic e) ∧
    (∀ d err out, FromSource env source = .ret d err out → err = none) := by
  obtain ⟨v, hv2⟩ : ∃ v, InitialIs env source v := by
    rcases initial_cases env source with ⟨err, hne, hrej⟩ | h
    · rcases hv with h0 | ⟨v, hp⟩
      · exact absurd h0 hne
      · rw [hp] at hrej; exact Except.noConfusion hrej
    · exact h
  have hok : ∀ sess, env.NewSession = .ok sess →
      ∃ s, FromSource env source = .ret (some (.S3 s)) none
          ["Using default credential chain for authentication."] ∧
        s.Svc.Config.Credentials = none := by
    intro sess hs
    obtain ⟨d, out, heq, -, -, -, -, -, -, -, hc, hout⟩ :=
      FromSource_s3_ok env source v sess hv2 hk.symm hs
    simp only [hid, ne_eq, not_true_eq_false, false_and, if_false] at hc hout
    exact ⟨d, hout ▸ heq, hc⟩
  have hpanic : ∀ e, env.NewSession = .error e → FromSource env source = .panic e :=
    fun e hs => FromSource_s3_panic env source v e hv2 hk.symm hs
  refine ⟨hok, hpanic, ?_⟩
  intro d err out h
  obtain ⟨r, hs⟩ : ∃ r, env.NewSession = r := ⟨_, rfl⟩
  cases r with
  | error e => rw [hpanic e hs] at h; exact Outcome.noConfusion h
  | ok sess =>
    obtain ⟨s, heq, -⟩ := hok sess hs
    rw [heq] at h
    simp only [Outcome.ret.injEq] at h
    exact h.2.1.symm

/-- C6 amended, at an S3 source with every credential field empty. -/
theorem C6_empty_credentials_witness :
    ∃ s, FromSource sampleEnv { emptySource with Driver := "s3" } =
        .ret (some (.S3 s)) none ["Using default credential chain for authentication."] ∧
      s.Svc.Config.Credentials = none :=
  (C6_empty_credentials sampleEnv { emptySource with Driver := "s3" } (Or.inl rfl)
    (Or.inl rfl) rfl rfl).1 _ rfl

/-- C7: for a source of kind S3 or unspecified, the maximum retry count of
the client configuration `FromSource` builds is `maxRetries`, which is 12,
for every source; a configuration is built once the initial version is usable
and the session is created. -/
theorem C7_max_retries {SD : Type} (env : Env SD) (source : Source)
    (hk : source.Driver = env.kinds.DriverS3 ∨ source.Driver = env.kinds.DriverUnspecified) :
    maxRetries = 12 ∧
    (∀ cfg, (FromSource env source).clientConfig = some cfg →
      cfg.MaxRetries = some maxRetries) ∧
    (∀ sess, env.NewSession = .ok sess →
      (source.InitialVersion = "" ∨ ∃ v, env.Parse source.InitialVersion = .ok v) →
      ∃ cfg, (FromSource env source).clientConfig = some cfg) := by
  refine ⟨rfl, ?_, ?_⟩
  · intro cfg h
    exact (clientConfig_s3 env source hk.symm cfg h).2.1
  · intro sess hs hv
    exact clientConfig_s3_exists env source hk.symm sess hs hv

/-- C7 at a source with no kind. -/
theorem C7_max_retries_witness :
    (FromSource sampleEnv emptySource).clientConfig.bind (fun cfg => cfg.MaxRetries) =
      some 12 := by
  have h := C7_max_retries sampleEnv emptySource (Or.inr rfl)
  obtain ⟨c, hc⟩ := h.2.2 _ rfl (Or.inl rfl)
  rw [hc]
  exact h.2.1 c hc

/-- C9, the code at an S3 source with `AccessKeyID` "AKIA" and an empty
`SecretAccessKey`: one credential is provided, and still the client
configuration has `Credentials` unset and the default-chain notice is
printed. -/
theorem C9_one_credential_uses_default_chain :
    ∃ s, FromSource sampleEnv { emptySource with Driver := "s3", AccessKeyID := "AKIA" } =
        .ret (some (.S3 s)) none ["Using default credential chain for authentication."] ∧
      s.Svc.Config.Credentials = none :=
  ⟨_, rfl, rfl⟩

/-- C10: for a source of kind S3 or unspecified, replacing `SessionToken` by
any other value leaves the outcome of `FromSource`, and so the client
configuration, unchanged; static credentials set on the configuration carry
an empty session token; a configuration is built once the initial version is
usable and the session is created. -/
theorem C10_session_token_ignored {SD : Type} (env : Env SD) (source : Source)
    (hk : source.Driver = env.kinds.DriverS3 ∨ source.Driver = env.kinds.DriverUnspecified) :
    (∀ token, FromSource env { source with SessionToken := token } = FromSource env source) ∧
    (∀ token, (FromSource env { source with SessionToken := token }).clientConfig =
      (FromSource env source).clientConfig) ∧
    (∀ cfg creds, (FromSource env source).clientConfig = some cfg →
      cfg.Credentials = some creds → creds.SessionToken = "") ∧
    (∀ sess, env.NewSession = .ok sess →
      (source.InitialVersion = "" ∨ ∃ v, env.Parse source.InitialVersion = .ok v) →
      ∃ cfg, (FromSource env source).clientConfig = some cfg) := by
  have h1 : ∀ token, FromSource env { source with SessionToken := token } =
      FromSource env source := by
    intro token
    unfold FromSource
    simp [hk.symm]
  refine ⟨h1, fun token => by rw [h1 token], ?_, ?_⟩
  · intro cfg creds h hc
    obtain ⟨-, -, hcr⟩ := clientConfig_s3 env source hk.symm cfg h
    rw [hcr] at hc
    split_ifs at hc
    simp only [Option.some.injEq] at hc
    rw [← hc]
  · intro sess hs hv
    exact clientConfig_s3_exists env source hk.symm sess hs hv

/-- C10 at an S3 source with both credentials and a session token "tok": the
static credentials on the configuration carry the empty token. -/
theorem C10_session_token_ignored_witness :
    (FromSource sampleEnv
        { emptySource with
            Driver := "s3", AccessKeyID := "AKIA", SecretAccessKey := "s3cr3t",
            SessionToken := "tok" }).clientConfig.bind (fun cfg => cfg.Credentials) =
      some { AccessKeyID := "AKIA", SecretAccessKey := "s3cr3t", SessionToken := "" } ∧
    FromSource sampleEnv
        { emptySource with
            Driver := "s3", AccessKeyID := "AKIA", SecretAccessKey := "s3cr3t",
            SessionToken := "tok" } =
      FromSource sampleEnv
        { emptySource with
            Driver := "s3", AccessKeyID := "AKIA", SecretAccessKey := "s3cr3t" } :=
  ⟨rfl, (C10_session_token_ignored sampleEnv
    { emptySource with Driver := "s3", AccessKeyID := "AKIA", SecretAccessKey := "s3cr3t" }
    (Or.inl rfl)).1 "tok"⟩

/-! ## The race of two `Bump(Patch)` calls -/

theorem Race_step_stage (initial : Version) (token : Nat) (who : Bool) (s : Stage) :
    Race.step initial patchRule who (s.race token) = (Stage.next who s).race token := by
  cases s <;> cases who <;> (try rename_i w; cases w) <;>
  simp [Race.step, Call.step, Stage.race, Stage.next, Store.read, Store.writeIf, patchRule,
    ApplyBumpPatch, v10, retryCeiling]

theorem Race_run_stage (initial : Version) (token : Nat) (sched : List Bool) (s : Stage) :
    Race.run initial patchRule sched (s.race token) = (Stage.after sched s).race token := by
  induction sched generalizing s with
  | nil => rfl
  | cons who rest ih =>
    simp only [Race.run, Stage.after, Race_step_stage]
    exact ih _

theorem Race_both_read (initial : Version) (token : Nat) (who : Bool) :
    Race.run initial patchRule [who, !who] (raceStart token) = Stage.bothRead.race token := by
  cases who <;>
  simp [Race.run, Race.step, Call.step, Stage.race, Store.read, patchRule, ApplyBumpPatch,
    v10, raceStart]

theorem Stage_todo_next (who p : Bool) (s : Stage) :
    (Stage.next who s).todo p + (if who = p then 1 else 0) ≤
      max (s.todo p) (if who = p then 1 else 0) := by
  cases s <;> cases who <;> cases p <;> (try rename_i w; cases w) <;> decide

theorem Stage_todo_after (p : Bool) (sched : List Bool) (s : Stage) :
    (Stage.after sched s).todo p ≤ s.todo p - sched.count p := by
  induction sched generalizing s with
  | nil => simp [Stage.after]
  | cons who rest ih =>
    have h1 := ih (Stage.next who s)
    have h2 := Stage_todo_next who p s
    simp only [Stage.after, List.count_cons, beq_iff_eq]
    split_ifs at h2 ⊢ <;> omega

theorem Stage_settled_of_todo (s : Stage) (h0 : s.todo false = 0) (h1 : s.todo true = 0) :
    ∃ w, s = .settled w := by
  cases s with
  | settled w => exact ⟨w, rfl⟩
  | bothRead => simp [Stage.todo] at h0
  | won w => cases w <;> simp [Stage.todo] at h0 h1
  | conflicted w => cases w <;> simp [Stage.todo] at h0 h1
  | reread w => cases w <;> simp [Stage.todo] at h0 h1

theorem Stage_settled_of_finished (token : Nat) (s : Stage)
    (h0 : (s.race token).first.finished = true) (h1 : (s.race token).second.finished = true) :
    ∃ w, s = .settled w := by
  cases s with
  | settled w => exact ⟨w, rfl⟩
  | bothRead => simp [Stage.race, Call.finished] at h0
  | won w => cases w <;> simp [Stage.race, Call.finished] at h0 h1
  | conflicted w => cases w <;> simp [Stage.race, Call.finished] at h0 h1
  | reread w => cases w <;> simp [Stage.race, Call.finished] at h0 h1

/-- C8: two `Bump(Patch)` calls race against a store holding `1.0.0`, each
having read it before the other writes (the schedule starts with one storage
operation of each call), with no other writer, whatever initial version the
driver was given.  After the two reads both calls hold `1.0.1` to write.
Whenever both calls have come back, the store holds `1.0.2`, one call
returned `1.0.1` without a retry and the other returned `1.0.2` after
exactly one retry.  And both calls do come back once each was scheduled
three more times. -/
theorem C8_no_lost_update (initial : Version) (token : Nat) (who : Bool)
    (rest : List Bool) :
    Race.run initial patchRule [who, !who] (raceStart token) =
      { store := { value := some (v10 0), token := token },
        first := .writing (v10 1) token 0, second := .writing (v10 1) token 0 } ∧
    (((Race.run initial patchRule (who :: (!who) :: rest) (raceStart token)).first.finished
        = true ∧
      (Race.run initial patchRule (who :: (!who) :: rest) (raceStart token)).second.finished
        = true) →
      (Race.run initial patchRule (who :: (!who) :: rest) (raceStart token)).store.value =
        some (v10 2) ∧
      (((Race.run initial patchRule (who :: (!who) :: rest) (raceStart token)).first =
            .returned (v10 1) 0 ∧
          (Race.run initial patchRule (who :: (!who) :: rest) (raceStart token)).second =
            .returned (v10 2) 1) ∨
        ((Race.run initial patchRule (who :: (!who) :: rest) (raceStart token)).first =
            .returned (v10 2) 1 ∧
          (Race.run initial patchRule (who :: (!who) :: rest) (raceStart token)).second =
            .returned (v10 1) 0))) ∧
    ((3 ≤ rest.count false ∧ 3 ≤ rest.count true) →
      (Race.run initial patchRule (who :: (!who) :: rest) (raceStart token)).first.finished
        = true ∧
      (Race.run initial patchRule (who :: (!who) :: rest) (raceStart token)).second.finished
        = true) := by
  have hrun : Race.run initial patchRule (who :: (!who) :: rest) (raceStart token) =
      (Stage.after rest .bothRead).race token := by
    have h := Race_both_read initial token who
    simp only [Race.run] at h ⊢
    rw [h, Race_run_stage]
  refine ⟨Race_both_read initial token who, ?_, ?_⟩
  · rw [hrun]
    rintro ⟨h0, h1⟩
    obtain ⟨w, hw⟩ := Stage_settled_of_finished token _ h0 h1
    rw [hw]
    cases w <;> simp [Stage.race]
  · rintro ⟨h0, h1⟩
    rw [hrun]
    have t0 : (Stage.after rest .bothRead).todo false ≤ 3 - rest.count false :=
      Stage_todo_after false rest .bothRead
    have t1 : (Stage.after rest .bothRead).todo true ≤ 3 - rest.count true :=
      Stage_todo_after true rest .bothRead
    obtain ⟨w, hw⟩ := Stage_settled_of_todo (Stage.after rest .bothRead) (by omega) (by omega)
    rw [hw]
    cases w <;> simp [Stage.race, Call.finished]

/-- C8 under the schedule first, second, first, second, second, second, with
a driver whose initial version is `0.0.0`: the first call returns `1.0.1`,
the second retries once and returns `1.0.2`, which is what the store holds. -/
theorem C8_no_lost_update_witness :
    (Race.run zeroVersion patchRule [false, true, false, true, true, true]
        (raceStart 0)).store.value = some (v10 2) ∧
    (((Race.run zeroVersion patchRule [false, true, false, true, true, true]
          (raceStart 0)).first = .returned (v10 1) 0 ∧
        (Race.run zeroVersion patchRule [false, true, false, true, true, true]
          (raceStart 0)).second = .returned (v10 2) 1) ∨
      ((Race.run zeroVersion patchRule [false, true, false, true, true, true]
          (raceStart 0)).first = .returned (v10 2) 1 ∧
        (Race.run zeroVersion patchRule [false, true, false, true, true, true]
          (raceStart 0)).second = .returned (v10 1) 0)) :=
  (C8_no_lost_update zeroVersion 0 false [false, true, true, true]).2.1 ⟨by decide, by decide⟩

end SemverResource
